import Mathlib

/-!
Shallow embedding of the A-Eye voice-assistant repository (Python) and
verification of a set of behavioural claims about it.

The embedding models:
  * the trigger-word dispatcher of `main.start` (src/main.py),
  * the follow-up sub-session `handle_follow_up_queries` and the
    contextual generator `generate_contextual_response`
    (src/modules/object_recognizer.py),
  * `send_sos_message` (src/modules/emergency_handler.py),
  * the face-registration log operations of
    src/modules/face_recognition.py,
  * the camera fallback `get_frame` (src/modules/iot_controller.py),
  * the producer/consumer pair `capture_frames` / `describe_frames`
    (src/modules/video_analyzer.py).

External effects (speech synthesis, network, camera hardware, the
generative-model API) are modelled by explicit oracle parameters; the
functions under study are translated line by line from the Python source.
-/

namespace AEye

/-- Python `needle in hay` on strings: contiguous-substring test
(case-sensitive, empty needle always matches). -/
def strInfix (needle hay : String) : Bool :=
  decide (needle.data <:+: hay.data)

/-- Python `str.lower()` restricted to ASCII case folding, which covers
every string the claims exercise. -/
def pyLower (s : String) : String :=
  ⟨s.data.map Char.toLower⟩

/-- Python `str.strip()` whitespace class. -/
def isPySpace (c : Char) : Bool :=
  c = ' ' || c = '\t' || c = '\n' || c = '\r' || c = '\x0b' || c = '\x0c'

/-- Python `str.strip()`: drop leading and trailing whitespace. -/
def pyStrip (s : String) : String :=
  ⟨((s.data.dropWhile isPySpace).reverse.dropWhile isPySpace).reverse⟩

/-- Python truthiness of an optional string: `None` and `""` are falsy,
every other string is truthy. Used for `if user_talk:`, `if user_query:`,
`if scene_description:` and the like. -/
def truthy : Option String → Bool
  | none => false
  | some s => !s.isEmpty

/-- The six trigger categories of `main.start`, in source order. -/
inductive Handler where
  | scene | object | ocr | sos | navigation | face
deriving DecidableEq

/-- Trigger-word list of `main.start` line 30. -/
def scene_trigger : List String := ["scene", "describe", "description", "seeing", "see"]

/-- Trigger-word list of `main.start` line 31. -/
def sensory_trigger : List String := ["sensory", "search", "holding", "buy"]

/-- Trigger-word list of `main.start` line 32. -/
def ocr_trigger : List String := ["read", "book", "notice", "pamphlet"]

/-- Trigger-word list of `main.start` line 33. -/
def sos_trigger : List String := ["sos", "emergency", "help"]

/-- Trigger-word list of `main.start` line 34. -/
def face_trigger : List String := ["face", "recognize", "register"]

/-- Trigger-word list of `main.start` line 35. -/
def nav_trigger : List String := ["navigation", "route", "navigate", "path", "show me route", "show me"]

/-- Keyword list of each category. -/
def triggers : Handler → List String
  | .scene => scene_trigger
  | .object => sensory_trigger
  | .ocr => ocr_trigger
  | .sos => sos_trigger
  | .navigation => nav_trigger
  | .face => face_trigger

/-- The fixed order in which `main.start` tests the six categories:
scene (line 38), object (line 47), ocr (line 55), sos (line 62),
navigation (line 71), face (line 78). -/
def handlerOrder : List Handler :=
  [.scene, .object, .ocr, .sos, .navigation, .face]

/-- Python `any(word in user_talk for word in trigger)`. -/
def matchesTrigger (h : Handler) (u : String) : Bool :=
  (triggers h).any (fun w => strInfix w u)

/-- Oracle outcomes of the feature calls made by one dispatcher cycle:
`analyze_scene`, `recognize_object`, `extract_text_from_image`,
`send_sos_message` (always a string), `analyze_environment`,
`register_new_face`. -/
structure HandlerEnv where
  sceneResult : Option String
  objectResult : Option String
  ocrResult : Option String
  sosResult : String
  navResult : Option String
  faceResult : Option String

/-- Messages a feature block of `main.start` speaks, as a function of the
oracle outcome. Speech produced inside the callees themselves (and inside
the follow-up sub-session, modelled separately) is abstracted away; the
notices spoken directly by `main.start` are reproduced verbatim. -/
def runHandler (env : HandlerEnv) : Handler → List String
  | .scene =>
      if truthy env.sceneResult then [env.sceneResult.getD ""]
      else ["Failed to analyze scene"]
  | .object =>
      if truthy env.objectResult then []
      else ["Failed to recognize object"]
  | .ocr =>
      if truthy env.ocrResult then []
      else ["Failed to extract text from image"]
  | .sos =>
      [if strInfix "SID" env.sosResult then "SOS message sent successfully"
       else "Failed to send SOS message"]
  | .navigation =>
      if truthy env.navResult then []
      else ["Failed to analyze environment for navigation"]
  | .face =>
      if truthy env.faceResult then ["Face registered as " ++ env.faceResult.getD ""]
      else ["Face registration failed."]

/-- Observable outcome of one iteration of the inner loop of `main.start`:
which feature blocks ran (in order), what was spoken by `main.start`
itself, and whether the function returned (`terminated = true`) or the
loop re-enters listening (`terminated = false`). -/
structure CycleOut where
  invoked : List Handler
  spoken : List String
  terminated : Bool
deriving DecidableEq

/-- One iteration of the inner loop of `main.start` (lines 24-91) on the
value returned by `get_voice_input`. A falsy transcript (None or the
empty string) takes the `else` branch at line 90 and speaks "No Input";
otherwise each of the six trigger tests runs in source order, and finally
the exit test `"exit" in user_talk` decides termination. -/
def start_cycle (env : HandlerEnv) (input : Option String) : CycleOut :=
  if truthy input then
    let u := input.getD ""
    let inv := handlerOrder.filter (fun h => matchesTrigger h u)
    let spokenH := (inv.map (runHandler env)).flatten
    if strInfix "exit" u then
      { invoked := inv, spoken := spokenH ++ ["Exiting now."], terminated := true }
    else
      { invoked := inv, spoken := spokenH, terminated := false }
  else
    { invoked := [], spoken := ["No Input"], terminated := false }

/-- Embedding of `emergency_handler.send_sos_message` (lines 45-75). The
Twilio call is the oracle `attempt`: `Except.ok sid` is a successful
`client.messages.create` returning `message.sid`; `Except.error e` is any
exception, whose text `e` is interpolated into the `except` branch's
message. The function is total: both branches return a plain string. -/
def send_sos_message (attempt : Except String String) : String :=
  match attempt with
  | .ok sid => sid
  | .error e => "Failed to send SOS message: " ++ e

/-- Embedding of `object_recognizer.generate_contextual_response`
(lines 71-93). `mdl` is the generative-model oracle: on the combined
prompt it returns `some answer`, or `none` when `generate_content`
raises. A falsy (`""`) context takes the `else` branch at line 92;
a model failure is caught at line 89 and answered with the fixed
apology; both failure branches return, they never re-raise. -/
def generate_contextual_response (user_input context : String)
    (mdl : String → Option String) : String :=
  if !context.isEmpty then
    match mdl (context ++ "\n" ++ "User: " ++ user_input) with
    | some answer => answer
    | none => "Sorry, I couldn\x27t process your request."
  else
    "There is no context available to respond to your question."

/-- Observable event of one iteration of the follow-up loop of
`object_recognizer.handle_follow_up_queries`: a retry notice on falsy
input, an answer generated from the recorded context, or the exit of the
sub-session. -/
inductive FEvent where
  | retry
  | answered (ctxUsed : String) (response : String)
  | exited
deriving DecidableEq

/-- Embedding of `object_recognizer.handle_follow_up_queries`
(lines 96-121) over the finite stream `inputs` of `get_voice_input`
results. Each truthy utterance is lowercased (line 110); if it contains
"exit" the loop breaks, otherwise `generate_contextual_response` is
called with the lowercased query and the unmodified `context` parameter;
falsy input speaks a retry notice and loops. An empty trace remainder
means the loop is still waiting for further input. -/
def handle_follow_up_queries (mdl : String → Option String) (context : String) :
    List (Option String) → List FEvent
  | [] => []
  | i :: rest =>
    if truthy i then
      if strInfix "exit" (pyLower (i.getD "")) then
        [.exited]
      else
        .answered context (generate_contextual_response (pyLower (i.getD "")) context mdl)
          :: handle_follow_up_queries mdl context rest
    else
      .retry :: handle_follow_up_queries mdl context rest

/-- Python `s.split(sep, 1)` at the first comma, on character lists:
`none` when the string has no comma (so that tuple unpacking of the
one-element result raises `ValueError`). -/
def splitFirst : List Char → Option (List Char × List Char)
  | [] => none
  | c :: cs =>
    if c = ',' then some ([], cs)
    else (splitFirst cs).map (fun p => (c :: p.1, p.2))

/-- Name field of a face-log line as `delete_face_registration` parses it:
strip the line, split at the first comma, strip the part before it; a
comma-less line has no name field. -/
def lineNameIs (n : String) (line : String) : Bool :=
  match splitFirst (pyStrip line).data with
  | none => false
  | some p => pyStrip ⟨p.1⟩ = n

/-- The read loop of `face_recognition.delete_face_registration`
(lines 208-215) over the lines of the log file (each modelled without its
trailing newline). Blank lines fail `if line.strip():` and are neither
kept nor deleted; a non-blank comma-less line makes the tuple unpacking
at line 211 raise (`none`); otherwise the line is kept verbatim unless
its stripped name field equals `n`, in which case its stripped path field
joins the deletion list. -/
def deleteScan (n : String) : List String → Option (List String × List String)
  | [] => some ([], [])
  | line :: rest =>
    if (pyStrip line).isEmpty then deleteScan n rest
    else
      match splitFirst (pyStrip line).data with
      | none => none
      | some p =>
        match deleteScan n rest with
        | none => none
        | some kd =>
          if pyStrip ⟨p.1⟩ = n then some (kd.1, pyStrip ⟨p.2⟩ :: kd.2)
          else some (line :: kd.1, kd.2)

/-- Embedding of `face_recognition.delete_face_registration`
(lines 188-232) restricted to its effect on the log file, modelled as the
list of its lines. A `ValueError` during the read loop is caught at
line 230 before the log is rewritten, so the log is returned unchanged
with result `false`; otherwise the log is rewritten with exactly the kept
lines and the result is `true`. -/
def delete_face_registration (n : String) (log : List String) : Bool × List String :=
  match deleteScan n log with
  | none => (false, log)
  | some kd => (true, kd.1)

/-- The log append performed by `face_recognition.register_new_face`
(lines 122-125): one line `f"{person_name}, {output_path}"`, newline
terminated, appended at the end of the log. -/
def register_new_face_log (log : List String) (personName outputPath : String) : List String :=
  log ++ [personName ++ ", " ++ outputPath]

/-- Oracle outcomes of one camera attempt inside
`iot_controller.get_frame`: `Except.error` is a raised exception (for the
network attempt this covers `urlopen` errors and timeouts), `Except.ok
none` is a non-raising failure (`imdecode` returning None; local camera
not opening or `read` returning False), `Except.ok (some f)` is a
captured frame. Frames are modelled as naturals. -/
structure CamEnv where
  net : Except Unit (Option Nat)
  localCam : Except Unit (Option Nat)

/-- Frame delivered by one attempt, if any. -/
def attemptFrame : Except Unit (Option Nat) → Option Nat
  | .ok (some f) => some f
  | _ => none

/-- Embedding of `iot_controller.get_frame` (lines 13-48). The first
component is the returned value; the second records whether the local
camera block was entered. The network try block returns early only when
it decoded a frame; every other outcome (exception caught at line 28, or
an undecodable image falling past the `if` at line 26) reaches the local
try block, whose own failures and exceptions all return None rather than
propagate. -/
def get_frame (env : CamEnv) : Option Nat × Bool :=
  match env.net with
  | .ok (some f) => (some f, false)
  | _ =>
    match env.localCam with
    | .ok (some f) => (some f, true)
    | _ => (none, true)

/-- Outcome of one iteration of the capture loop of
`video_analyzer.capture_frames`: `cap.read` fails (`ret` false), or a
frame is read and `cv2.waitKey` does or does not report the quit key. -/
inductive ReadResult where
  | fail
  | frame (quit : Bool)
deriving DecidableEq

/-- The capture loop of `video_analyzer.capture_frames` (lines 134-150),
returning the sequence of items the loop itself puts on the frame queue
(`some count` stands for the pair `(frame_<count>.jpg, timestamp)` pushed
when `frame_count % frame_interval == 0`). The result is `none` when the
trace `reads` ends before the loop exits (the loop would still be
running); `some pushes` means the loop exited — by a failed read or by
the quit key — having pushed `pushes`. -/
def captureLoop (frameInterval : Nat) (count : Nat) : List ReadResult → Option (List (Option Nat))
  | [] => none
  | .fail :: _ => some []
  | .frame quit :: rest =>
    let push : List (Option Nat) := if count % frameInterval = 0 then [some count] else []
    if quit then some push
    else (captureLoop frameInterval (count + 1) rest).map (fun l => push ++ l)

/-- Embedding of `video_analyzer.capture_frames` (lines 111-158) as the
sequence of items it puts on the frame queue. When the camera does not
open (`opens = false`) the function returns at line 127 having pushed
nothing; when it opens, the loop runs and, after it exits, `None` is
pushed at line 154. -/
def capture_frames (opens : Bool) (frameInterval : Nat) (reads : List ReadResult) :
    Option (List (Option Nat)) :=
  if opens then (captureLoop frameInterval 0 reads).map (fun l => l ++ [none])
  else some []

/-- The consumer loop of `video_analyzer.describe_frames` (lines 174-211)
on the queue contents, in first-in-first-out order: it processes entries
until it dequeues `none`, then breaks (after which the PDF is written at
line 213). `some processed` is the list of frames processed before the
sentinel; `none` means the queue holds no sentinel, so the loop blocks
forever and the PDF is never written. -/
def describe_frames : List (Option Nat) → Option (List Nat)
  | [] => none
  | none :: _ => some []
  | some f :: rest => (describe_frames rest).map (fun l => f :: l)

/-! Shared helper lemmas and concrete oracle instances used by witnesses. -/

/-- Concrete oracle environment used by witness instantiations. -/
def envW : HandlerEnv :=
  { sceneResult := some "a scene", objectResult := some "an object",
    ocrResult := some "some text", sosResult := "SM123",
    navResult := some "a route", faceResult := some "Alice" }

/-- Concrete generative-model oracle used by witness instantiations. -/
def mdlW : String → Option String := fun _ => some "an answer"

/-- Every category occurs in the dispatch order list. -/
lemma mem_handlerOrder (h : Handler) : h ∈ handlerOrder := by
  cases h <;> decide

/-- No trigger keyword occurs in the empty utterance. -/
lemma matchesTrigger_empty (h : Handler) : matchesTrigger h "" = false := by
  cases h <;> decide

/-- The membership characterization of the Boolean keyword test. -/
lemma matchesTrigger_iff (h : Handler) (u : String) :
    matchesTrigger h u = true ↔ ∃ kw, kw ∈ triggers h ∧ strInfix kw u = true := by
  simp [matchesTrigger, List.any_eq_true]

/-- A non-empty utterance is truthy. -/
lemma truthy_some_iff (u : String) : truthy (some u) = true ↔ u ≠ "" := by
  simp only [truthy, Bool.not_eq_true']
  rw [← Bool.not_eq_true]
  exact not_congr (String.isEmpty_iff u)

/-- Dispatch shape of one cycle on a truthy utterance. -/
lemma start_cycle_truthy (env : HandlerEnv) (u : String) (hu : u ≠ "") :
    start_cycle env (some u) =
      (let inv := handlerOrder.filter (fun h => matchesTrigger h u)
       let spokenH := (inv.map (runHandler env)).flatten
       if strInfix "exit" u then
         { invoked := inv, spoken := spokenH ++ ["Exiting now."], terminated := true }
       else
         { invoked := inv, spoken := spokenH, terminated := false }) := by
  have ht : truthy (some u) = true := (truthy_some_iff u).mpr hu
  simp only [start_cycle, ht, if_true, Option.getD_some]

/-! Claim C1. -/

/-- C1: for every utterance of one voice-capture cycle and each of the six
trigger categories, the category's handler runs in that cycle iff some
keyword of its fixed list occurs as a case-sensitive substring of the
utterance; the handlers that run do so one after another in the fixed
order scene, object, ocr, sos, navigation, face (the invoked list is a
sublist of `handlerOrder`). For the empty (falsy) utterance both sides
are vacuously false, so the statement needs no non-null hypothesis. -/
theorem claim1_trigger_dispatch (env : HandlerEnv) (u : String) :
    (start_cycle env (some u)).invoked.Sublist handlerOrder ∧
    ∀ h : Handler, h ∈ (start_cycle env (some u)).invoked ↔
      ∃ kw, kw ∈ triggers h ∧ strInfix kw u = true := by
  by_cases hu : u = ""
  · subst hu
    have ht : truthy (some "") = false := by decide
    simp only [start_cycle, ht, Bool.false_eq_true, if_false]
    constructor
    · exact List.nil_sublist _
    · intro h
      simp only [List.not_mem_nil, false_iff]
      rintro ⟨kw, hkw, hinf⟩
      have : matchesTrigger h "" = true := by
        rw [matchesTrigger_iff]; exact ⟨kw, hkw, hinf⟩
      rw [matchesTrigger_empty h] at this
      exact Bool.false_ne_true this
  · rw [start_cycle_truthy env u hu]
    by_cases hex : strInfix "exit" u = true
    · simp only [hex, if_true]
      refine ⟨List.filter_sublist _, fun h => ?_⟩
      rw [List.mem_filter, ← matchesTrigger_iff]
      simp [mem_handlerOrder h]
    · simp only [Bool.not_eq_true] at hex
      simp only [hex, Bool.false_eq_true, if_false]
      refine ⟨List.filter_sublist _, fun h => ?_⟩
      rw [List.mem_filter, ← matchesTrigger_iff]
      simp [mem_handlerOrder h]

/-! Claim C2. -/

/-- C2: on a truthy utterance, the session terminates exactly when "exit"
occurs as a substring of the raw transcript; the farewell is spoken after
everything the matched feature handlers speak (the exit check runs only
after the whole dispatch); without "exit" the cycle never terminates and
the loop re-enters listening with exactly the handlers' speech. -/
theorem claim2_exit_after_dispatch (env : HandlerEnv) (u : String) (hu : u ≠ "") :
    ((start_cycle env (some u)).terminated = strInfix "exit" u) ∧
    (strInfix "exit" u = true →
      (start_cycle env (some u)).spoken =
        ((start_cycle env (some u)).invoked.map (runHandler env)).flatten ++ ["Exiting now."]) ∧
    (strInfix "exit" u = false →
      (start_cycle env (some u)).terminated = false ∧
      (start_cycle env (some u)).spoken =
        ((start_cycle env (some u)).invoked.map (runHandler env)).flatten) := by
  rw [start_cycle_truthy env u hu]
  by_cases hex : strInfix "exit" u = true
  · simp [hex]
  · simp only [Bool.not_eq_true] at hex
    simp [hex]

/-- Witness for C2 at the concrete utterance "please exit now". -/
theorem claim2_exit_after_dispatch_witness :
    (start_cycle envW (some "please exit now")).terminated = strInfix "exit" "please exit now" ∧
    (strInfix "exit" "please exit now" = true →
      (start_cycle envW (some "please exit now")).spoken =
        ((start_cycle envW (some "please exit now")).invoked.map (runHandler envW)).flatten
          ++ ["Exiting now."]) ∧
    (strInfix "exit" "please exit now" = false →
      (start_cycle envW (some "please exit now")).terminated = false ∧
      (start_cycle envW (some "please exit now")).spoken =
        ((start_cycle envW (some "please exit now")).invoked.map (runHandler envW)).flatten) :=
  claim2_exit_after_dispatch envW "please exit now" (by decide)

/-! Claim C4. -/

/-- C4: on a falsy transcript (None or the empty string) the cycle invokes
no handler, matches no exit condition, speaks exactly the fixed "No
Input" notice, and re-enters listening. -/
theorem claim4_no_input (env : HandlerEnv) (input : Option String)
    (h : input = none ∨ input = some "") :
    start_cycle env input = { invoked := [], spoken := ["No Input"], terminated := false } := by
  rcases h with h | h <;> subst h
  · have ht : truthy none = false := by decide
    simp [start_cycle, ht]
  · have ht : truthy (some "") = false := by decide
    simp [start_cycle, ht]

/-- Witness for C4 at a None transcript. -/
theorem claim4_no_input_witness :
    start_cycle envW none = { invoked := [], spoken := ["No Input"], terminated := false } :=
  claim4_no_input envW none (Or.inl rfl)

/-! Claim C6. -/

/-- C6: `send_sos_message` is total over every Twilio outcome (modelled by
`attempt`), so it never propagates an exception: it returns the provider
message identifier on success and the non-empty descriptive error text on
failure. The dispatcher block speaks the SOS-success notice exactly when
"SID" occurs as a substring of the string it received, and the failure
notice exactly otherwise. -/
theorem claim6_sos_result (attempt : Except String String) (env : HandlerEnv) :
    (∀ sid, attempt = Except.ok sid → send_sos_message attempt = sid) ∧
    (∀ e, attempt = Except.error e →
      send_sos_message attempt = "Failed to send SOS message: " ++ e ∧
      send_sos_message attempt ≠ "") ∧
    (runHandler env Handler.sos = ["SOS message sent successfully"] ↔
      strInfix "SID" env.sosResult = true) ∧
    (runHandler env Handler.sos = ["Failed to send SOS message"] ↔
      strInfix "SID" env.sosResult = false) := by
  refine ⟨?_, ?_, ?_, ?_⟩
  · intro sid h; subst h; rfl
  · intro e h; subst h
    refine ⟨rfl, ?_⟩
    intro hc
    have hc' : ("Failed to send SOS message: " ++ e) = "" := hc
    have hlen := congrArg String.length hc'
    rw [String.length_append] at hlen
    have h0 : String.length "" = 0 := by decide
    have hpos : 0 < "Failed to send SOS message: ".length := by decide
    rw [h0] at hlen
    omega
  · cases hb : strInfix "SID" env.sosResult <;> simp [runHandler, hb]
  · cases hb : strInfix "SID" env.sosResult <;> simp [runHandler, hb]

/-- Witness for C6 at a successful send with identifier "SM123" and at the
concrete environment `envW` (whose stored result lacks "SID"). -/
theorem claim6_sos_result_witness :
    send_sos_message (Except.ok "SM123") = "SM123" ∧
    (runHandler envW Handler.sos = ["Failed to send SOS message"] ↔
      strInfix "SID" envW.sosResult = false) :=
  ⟨(claim6_sos_result (Except.ok "SM123") envW).1 "SM123" rfl,
   (claim6_sos_result (Except.ok "SM123") envW).2.2.2⟩

/-! Claim C7. -/

/-- C7: `get_frame` attempts the network camera first and returns its
frame without touching the local camera when it decodes one; the local
camera block is entered exactly when the network attempt raised, timed
out, or decoded nothing; the result is None exactly when both attempts
failed; the function is total over all outcomes of both attempts, so no
exception propagates. -/
theorem claim7_camera_fallback (env : CamEnv) :
    ((get_frame env).2 = true ↔ attemptFrame env.net = none) ∧
    ((get_frame env).1 = none ↔
      (attemptFrame env.net = none ∧ attemptFrame env.localCam = none)) ∧
    (∀ f, attemptFrame env.net = some f → get_frame env = (some f, false)) := by
  obtain ⟨net, loc⟩ := env
  rcases net with u | o
  · rcases loc with v | p
    · simp [get_frame, attemptFrame]
    · rcases p with _ | f <;> simp [get_frame, attemptFrame]
  · rcases o with _ | f
    · rcases loc with v | p
      · simp [get_frame, attemptFrame]
      · rcases p with _ | g <;> simp [get_frame, attemptFrame]
    · simp [get_frame, attemptFrame]

/-- Witness for C7: a successful network decode returns that frame without
attempting the local camera. -/
theorem claim7_camera_fallback_witness :
    get_frame { net := Except.ok (some 5), localCam := Except.error () } = (some 5, false) :=
  (claim7_camera_fallback { net := Except.ok (some 5), localCam := Except.error () }).2.2 5 rfl

/-! Claim C8. -/

/-- C8: `generate_contextual_response` is total (it never returns a null
value and never re-raises): with a falsy (empty) context it returns the
fixed no-context string; with a context present and a failing model call
it returns the fixed apology; otherwise it returns the model's answer. -/
theorem claim8_contextual_response (u c : String) (mdl : String → Option String) :
    (c = "" →
      generate_contextual_response u c mdl =
        "There is no context available to respond to your question.") ∧
    (c ≠ "" → mdl (c ++ "\n" ++ "User: " ++ u) = none →
      generate_contextual_response u c mdl = "Sorry, I couldn\x27t process your request.") ∧
    (∀ a, c ≠ "" → mdl (c ++ "\n" ++ "User: " ++ u) = some a →
      generate_contextual_response u c mdl = a) := by
  by_cases hc : c = ""
  · subst hc
    refine ⟨fun _ => rfl, fun h => absurd rfl h, fun a h => absurd rfl h⟩
  · have hne : c.isEmpty = false := by
      rw [← Bool.not_eq_true]
      exact fun hemp => hc ((String.isEmpty_iff c).mp hemp)
    refine ⟨fun h => absurd h hc, ?_, ?_⟩
    · intro _ hm
      simp [generate_contextual_response, hne, hm]
    · intro a _ hm
      simp [generate_contextual_response, hne, hm]

/-- Witness for C8 with a present context and a failing model call. -/
theorem claim8_contextual_response_witness :
    generate_contextual_response "what is it" "a red cup" (fun _ => none) =
      "Sorry, I couldn\x27t process your request." :=
  (claim8_contextual_response "what is it" "a red cup" (fun _ => none)).2.1
    (by decide) rfl

/-! Claim C3. -/

/-- C3: throughout the follow-up sub-session the stored context is never
changed — every generated answer uses exactly the context the sub-session
was entered with; if no utterance of the input stream contains "exit"
(after lowercasing) the sub-session consumes every input, one event per
input, and never exits (no turn limit or timeout); a truthy utterance
containing "exit" ends the sub-session at once, producing no answer for
that utterance and discarding the rest of the stream (the sub-session
body contains no trigger dispatch, so none runs on that utterance); a
falsy transcription produces the retry event and the loop continues. -/
theorem claim3_followup_invariant (mdl : String → Option String) (C : String)
    (inputs : List (Option String)) :
    (∀ c r, FEvent.answered c r ∈ handle_follow_up_queries mdl C inputs → c = C) ∧
    ((∀ q, some q ∈ inputs → strInfix "exit" (pyLower q) = false) →
      (handle_follow_up_queries mdl C inputs).length = inputs.length ∧
      FEvent.exited ∉ handle_follow_up_queries mdl C inputs) ∧
    (∀ q rest, truthy (some q) = true → strInfix "exit" (pyLower q) = true →
      handle_follow_up_queries mdl C (some q :: rest) = [FEvent.exited]) ∧
    (∀ rest, handle_follow_up_queries mdl C (none :: rest) =
      FEvent.retry :: handle_follow_up_queries mdl C rest) := by
  refine ⟨?_, ?_, ?_, ?_⟩
  · intro c r
    induction inputs with
    | nil => intro h; simp [handle_follow_up_queries] at h
    | cons i rest ih =>
      intro h
      rw [handle_follow_up_queries] at h
      by_cases ht : truthy i = true
      · rw [if_pos ht] at h
        by_cases hex : strInfix "exit" (pyLower (i.getD "")) = true
        · rw [if_pos hex] at h
          simp at h
        · rw [if_neg hex] at h
          rcases List.mem_cons.mp h with heq | hmem
          · injection heq with h1 h2
          · exact ih hmem
      · rw [if_neg ht] at h
        rcases List.mem_cons.mp h with heq | hmem
        · exact absurd heq (by simp)
        · exact ih hmem
  · induction inputs with
    | nil => intro _; simp [handle_follow_up_queries]
    | cons i rest ih =>
      intro hno
      have hrest := ih (fun q hq => hno q (List.mem_cons_of_mem i hq))
      rw [handle_follow_up_queries]
      by_cases ht : truthy i = true
      · have hi : ∃ q, i = some q := by
          cases i with
          | none => exact absurd ht (by simp [truthy])
          | some q => exact ⟨q, rfl⟩
        obtain ⟨q, hq⟩ := hi
        subst hq
        have hex : strInfix "exit" (pyLower q) = false :=
          hno q (List.mem_cons_self _ _)
        rw [if_pos ht, if_neg (by simp [Option.getD_some, hex])]
        refine ⟨by simpa using hrest.1, ?_⟩
        intro hmem
        rcases List.mem_cons.mp hmem with heq | hmem2
        · exact absurd heq (by simp)
        · exact hrest.2 hmem2
      · rw [if_neg ht]
        refine ⟨by simpa using hrest.1, ?_⟩
        intro hmem
        rcases List.mem_cons.mp hmem with heq | hmem2
        · exact absurd heq (by simp)
        · exact hrest.2 hmem2
  · intro q rest ht hex
    rw [handle_follow_up_queries, if_pos ht, if_pos (by simpa using hex)]
  · intro rest
    rw [handle_follow_up_queries, if_neg (by simp [truthy])]

/-- Witness for C3 on a concrete exit-free stream of two inputs. -/
theorem claim3_followup_invariant_witness :
    (handle_follow_up_queries mdlW "a red cup" [some "what is it", none]).length = 2 ∧
    FEvent.exited ∉ handle_follow_up_queries mdlW "a red cup" [some "what is it", none] :=
  (claim3_followup_invariant mdlW "a red cup" [some "what is it", none]).2.1
    (by
      intro q hq
      have hq' : q = "what is it" := by simpa using hq
      subst hq'
      decide)

/-! Claim C10. -/

/-- C10: exit matching is case-insensitive inside the follow-up
sub-session (the utterance is lowercased before the test, so "EXIT" ends
it) but case-sensitive in the top-level loop (the raw transcript is
tested, so "EXIT" neither terminates the session nor matches any trigger,
while a truthy utterance terminates exactly when it contains the
lowercase "exit" verbatim). -/
theorem claim10_exit_case_sensitivity (env : HandlerEnv) (mdl : String → Option String)
    (C : String) :
    (∀ q rest, truthy (some q) = true → strInfix "exit" (pyLower q) = true →
      handle_follow_up_queries mdl C (some q :: rest) = [FEvent.exited]) ∧
    (∀ rest, handle_follow_up_queries mdl C (some "EXIT" :: rest) = [FEvent.exited]) ∧
    ((start_cycle env (some "EXIT")).terminated = false) ∧
    ((start_cycle env (some "EXIT")).invoked = []) ∧
    (∀ u, u ≠ "" →
      ((start_cycle env (some u)).terminated = true ↔ strInfix "exit" u = true)) := by
  have hstep : ∀ q rest, truthy (some q) = true → strInfix "exit" (pyLower q) = true →
      handle_follow_up_queries mdl C (some q :: rest) = [FEvent.exited] := by
    intro q rest ht hex
    rw [handle_follow_up_queries, if_pos ht, if_pos (by simpa using hex)]
  refine ⟨hstep, ?_, ?_, ?_, ?_⟩
  · intro rest
    exact hstep "EXIT" rest (by decide) (by decide)
  · rw [start_cycle_truthy env "EXIT" (by decide)]
    simp only [show strInfix "exit" "EXIT" = false from by decide, Bool.false_eq_true,
      if_false]
  · rw [start_cycle_truthy env "EXIT" (by decide)]
    simp only [show strInfix "exit" "EXIT" = false from by decide, Bool.false_eq_true,
      if_false]
    exact (by decide : handlerOrder.filter (fun h => matchesTrigger h "EXIT") = [])
  · intro u hu
    rw [start_cycle_truthy env u hu]
    by_cases hex : strInfix "exit" u = true
    · simp [hex]
    · simp only [Bool.not_eq_true] at hex
      simp [hex]

/-- Witness for C10: "EXIT" ends the follow-up sub-session. -/
theorem claim10_exit_case_sensitivity_witness :
    handle_follow_up_queries mdlW "a red cup" [some "EXIT"] = [FEvent.exited] :=
  (claim10_exit_case_sensitivity envW mdlW "a red cup").2.1 []

/-! Claim C5. -/

/-- Deletion scan on a well-formed log (no blank lines, every line has a
comma) keeps exactly the lines whose parsed name field differs from the
deleted name, each kept verbatim. -/
lemma deleteScan_wellformed (n : String) :
    ∀ log : List String,
      (∀ L ∈ log, (pyStrip L).isEmpty = false ∧ splitFirst (pyStrip L).data ≠ none) →
      ∃ d, deleteScan n log = some (log.filter (fun L => !(lineNameIs n L)), d) := by
  intro log
  induction log with
  | nil => intro _; exact ⟨[], rfl⟩
  | cons L rest ih =>
    intro hwf
    obtain ⟨hL1, hL2⟩ := hwf L (List.mem_cons_self _ _)
    obtain ⟨d, hd⟩ := ih (fun L' hL' => hwf L' (List.mem_cons_of_mem L hL'))
    obtain ⟨p, hp⟩ := Option.ne_none_iff_exists'.mp hL2
    by_cases hname : pyStrip ⟨p.1⟩ = n
    · refine ⟨pyStrip ⟨p.2⟩ :: d, ?_⟩
      rw [deleteScan, if_neg (by simp [hL1]), hp, hd]
      dsimp only
      rw [if_pos hname]
      have hfilter : lineNameIs n L = true := by
        rw [lineNameIs, hp]
        dsimp only
        exact decide_eq_true hname
      rw [List.filter_cons_of_neg (by simp [hfilter])]
    · refine ⟨d, ?_⟩
      rw [deleteScan, if_neg (by simp [hL1]), hp, hd]
      dsimp only
      rw [if_neg hname]
      have hfilter : lineNameIs n L = false := by
        rw [lineNameIs, hp]
        dsimp only
        exact decide_eq_false hname
      rw [List.filter_cons_of_pos (by simp [hfilter])]

/-- Counterexample to C5 as stated: on the log whose first line is blank,
deleting "Alice" removes the blank line even though its name field is not
"Alice" (it has no name field at all), so deletion does not leave every
non-matching line unchanged for arbitrary log states. -/
theorem claim5_blank_line_counterexample :
    delete_face_registration "Alice" ["", "Bob, b.jpg"] = (true, ["Bob, b.jpg"]) ∧
    lineNameIs "Alice" "" = false ∧
    (["", "Bob, b.jpg"] : List String) ≠ ["Bob, b.jpg"] := by
  refine ⟨by decide, by decide, by decide⟩

/-- C5 (amended): registration appends exactly one `name, path` line at
the end of the log; on any log state whose lines are all non-blank and
contain a comma, deletion rewrites the log keeping, byte-for-byte
unchanged and in order, exactly the lines whose name field (the segment
before the first comma, whitespace-stripped) differs from the deleted
name, and returns success; in particular registering "Alice" then "Bob"
and deleting "Alice" leaves exactly Bob's line. -/
theorem claim5_log_round_trip (n : String) (log : List String)
    (hwf : ∀ L ∈ log, (pyStrip L).isEmpty = false ∧ splitFirst (pyStrip L).data ≠ none) :
    delete_face_registration n log = (true, log.filter (fun L => !(lineNameIs n L))) ∧
    (∀ (l : List String) (name path : String),
      register_new_face_log l name path = l ++ [name ++ ", " ++ path] ∧
      (register_new_face_log l name path).length = l.length + 1) ∧
    delete_face_registration "Alice"
        (register_new_face_log (register_new_face_log [] "Alice" "a.jpg") "Bob" "b.jpg")
      = (true, ["Bob, b.jpg"]) := by
  refine ⟨?_, ?_, by decide⟩
  · obtain ⟨d, hd⟩ := deleteScan_wellformed n log hwf
    rw [delete_face_registration, hd]
  · intro l name path
    exact ⟨rfl, by simp [register_new_face_log]⟩

/-- Witness for C5 on the two-line log made of Alice's and Bob's
registrations. -/
theorem claim5_log_round_trip_witness :
    delete_face_registration "Alice" ["Alice, a.jpg", "Bob, b.jpg"]
      = (true, (["Alice, a.jpg", "Bob, b.jpg"] : List String).filter
          (fun L => !(lineNameIs "Alice" L))) :=
  (claim5_log_round_trip "Alice" ["Alice, a.jpg", "Bob, b.jpg"] (by decide)).1

/-! Claim C9. -/

/-- The capture loop itself never pushes the sentinel: every item it
enqueues is a frame. -/
lemma captureLoop_no_sentinel (fi : Nat) :
    ∀ (reads : List ReadResult) (c : Nat) (l : List (Option Nat)),
      captureLoop fi c reads = some l → Option.none ∉ l := by
  intro reads
  induction reads with
  | nil => intro c l h; simp [captureLoop] at h
  | cons r rest ih =>
    intro c l h
    cases r with
    | fail =>
      rw [captureLoop] at h
      injection h with h
      subst h
      simp
    | frame quit =>
      rw [captureLoop] at h
      by_cases hq : quit = true
      · rw [if_pos hq] at h
        injection h with h
        subst h
        by_cases hm : c % fi = 0 <;> simp [hm]
      · rw [if_neg hq] at h
        obtain ⟨tail, htail, hl⟩ := Option.map_eq_some'.mp h
        subst hl
        intro hmem
        rcases List.mem_append.mp hmem with hin | hin
        · by_cases hm : c % fi = 0 <;> simp [hm] at hin
        · exact ih (c + 1) tail htail hin

/-- The consumer processes a sentinel-terminated queue completely and in
order. -/
lemma describe_frames_until_sentinel :
    ∀ front : List (Option Nat), Option.none ∉ front →
      describe_frames (front ++ [none]) = some (front.filterMap id) ∧
      (front.filterMap id).length = front.length := by
  intro front
  induction front with
  | nil => intro _; exact ⟨rfl, rfl⟩
  | cons a front ih =>
    intro hno
    have ha : ∃ f, a = some f := by
      cases a with
      | none => exact absurd (List.mem_cons_self _ _) hno
      | some f => exact ⟨f, rfl⟩
    obtain ⟨f, hf⟩ := ha
    subst hf
    have hrest := ih (fun hmem => hno (List.mem_cons_of_mem _ hmem))
    constructor
    · rw [List.cons_append, describe_frames, hrest.1]
      simp [List.filterMap_cons]
    · simp only [List.filterMap_cons, id, List.length_cons]
      rw [hrest.2]

/-- Counterexample to C9 as stated: when the camera fails to open,
`capture_frames` returns at once (even though the quit key is pending in
the trace) and the queue receives nothing — in particular no None
sentinel — so the sentinel is not pushed in every execution, and the
consumer facing that queue never meets its stop condition. -/
theorem claim9_no_open_counterexample :
    capture_frames false 5 [ReadResult.frame true] = some [] ∧
    Option.none ∉ ([] : List (Option Nat)) ∧
    describe_frames ([] : List (Option Nat)) = none := by
  refine ⟨by decide, by simp, rfl⟩

/-- C9 (amended): in every execution of `capture_frames` in which the
camera opens and the capture loop exits — on a quit keypress or on a
failed read — the pushed queue ends with exactly one None sentinel, every
earlier entry is a frame, and the consumer `describe_frames` dequeues the
entries first-in-first-out, processes every frame, stops at the sentinel
and writes the PDF; when the camera fails to open, the producer returns
without pushing the sentinel. -/
theorem claim9_sentinel_roundtrip (fi : Nat) (reads : List ReadResult)
    (l : List (Option Nat)) (h : capture_frames true fi reads = some l) :
    ∃ front, l = front ++ [Option.none] ∧ Option.none ∉ front ∧
      describe_frames l = some (front.filterMap id) ∧
      (front.filterMap id).length = front.length := by
  rw [capture_frames, if_pos rfl] at h
  obtain ⟨front, hfront, hl⟩ := Option.map_eq_some'.mp h
  subst hl
  have hno := captureLoop_no_sentinel fi reads 0 front hfront
  obtain ⟨hdesc, hlen⟩ := describe_frames_until_sentinel front hno
  exact ⟨front, rfl, hno, hdesc, hlen⟩

/-- Witness for C9 on a concrete two-read trace: one captured frame, then
a failed read; the queue is the frame followed by the sentinel and the
consumer processes exactly that frame. -/
theorem claim9_sentinel_roundtrip_witness :
    ∃ front, ([some 0, none] : List (Option Nat)) = front ++ [Option.none] ∧
      Option.none ∉ front ∧
      describe_frames ([some 0, none] : List (Option Nat)) = some (front.filterMap id) ∧
      (front.filterMap id).length = front.length :=
  claim9_sentinel_roundtrip 1 [ReadResult.frame false, ReadResult.fail]
    [some 0, none] (by decide)

end AEye
